import Mathlib

/-
Verification of the Strapi 3 -> Strapi 4 migration script (migrate.py).

The script manipulates JSON-like records (Python dicts decoded from the two
CMS HTTP APIs).  We embed those records as association lists of string keys
and a Value type mirroring JSON.  Network calls are modelled by oracles held
in a Config structure: the result of uploading a media file, the data array
returned by the destination old_id filter query, and the HTTP status of a
creation request.  Python exceptions (KeyError, TypeError, the ValueError
raised by fetch_related_id_in_strapi_4) are modelled with Except.
-/

namespace Migrate

/-- JSON-like values as produced by the two CMS APIs and manipulated by
migrate.py.  Objects are association lists in insertion order, matching
Python dict iteration order. -/
inductive Value where
  | null : Value
  | bool (b : Bool) : Value
  | num (n : Int) : Value
  | str (s : String) : Value
  | arr (elems : List Value) : Value
  | obj (fields : List (String × Value)) : Value

/-- An entry (or component) is a Python dict: field name to value, in
insertion order. -/
abbrev Entry := List (String × Value)

/-- Python exceptions that migrate.py can raise while transforming data.
valueError stands for the ValueError raised by fetch_related_id_in_strapi_4
when no match is found (the NotFoundError of the specification). -/
inductive PyError where
  | keyError (k : String) : PyError
  | typeError : PyError
  | valueError : PyError

/-- Python truthiness for JSON values, used by value.get("url") checks. -/
def truthy : Value → Bool
  | .null => false
  | .bool b => b
  | .num n => n != 0
  | .str s => s != ""
  | .arr l => !l.isEmpty
  | .obj l => !l.isEmpty

/-- Dict read: first binding of a key, as in a Python dict (keys unique). -/
def lookupField : Entry → String → Option Value
  | [], _ => none
  | (k, v) :: rest, f => if k = f then some v else lookupField rest f

/-- Dict write entry[f] = x: replace the binding in place if present,
otherwise append, as Python dict assignment does. -/
def setField : Entry → String → Value → Entry
  | [], f, x => [(f, x)]
  | (k, v) :: rest, f, x =>
      if k = f then (f, x) :: rest else (k, v) :: setField rest f x

/-- Dict entry.pop(f, None): remove every binding of the key (a Python dict
holds at most one). -/
def popField : Entry → String → Entry
  | [], _ => []
  | (k, v) :: rest, f =>
      if k = f then popField rest f else (k, v) :: popField rest f

/-- Python value.get(k) on a dict, none for non-dicts (the script only calls
this after an isinstance(value, dict) check). -/
def getKey : Value → String → Option Value
  | .obj kvs, k => lookupField kvs k
  | _, _ => none

/-- Python value[k]: KeyError on a dict missing the key, TypeError when the
value is not a dict at all. -/
def getItem : Value → String → Except PyError Value
  | .obj kvs, k =>
      match lookupField kvs k with
      | some v => .ok v
      | none => .error (.keyError k)
  | _, _ => .error .typeError

/-- Whether a value is a Python dict. -/
def isDict : Value → Bool
  | .obj _ => true
  | _ => false

/-- Configuration and network oracles of migrate.py.  The field names follow
the module level globals of the script.  urljoin stands for
urllib.parse.urljoin applied to the base URL and the url value of a media
mapping; mediaTransfer is the composite download_media followed by
upload_media_to_strapi_4, returning the id of the uploaded media metadata;
relatedData is the data array answered by the destination for the
filters[old_id][$eq] query of fetch_related_id_in_strapi_4; createStatus is
the HTTP status code answered by the destination creation endpoint for a
given payload. -/
structure Config where
  STRAPI_3_BASE_URL : String
  RELATIONSHIP_FIELDS : List String
  BATCH_SIZE : Nat
  urljoin : String → Value → String
  mediaTransfer : String → Int
  relatedData : String → Value → List Value
  createStatus : Entry → Nat

/-- Python str.split for a one character separator, on the character list:
emit the accumulated chunk at each separator and at the end of the string.
Splitting the empty string yields a list holding one empty string, exactly
as in Python. -/
def pySplitAux (sep : Char) : List Char → List Char → List String
  | [], acc => [String.mk acc.reverse]
  | c :: rest, acc =>
      if c = sep then String.mk acc.reverse :: pySplitAux sep rest []
      else pySplitAux sep rest (c :: acc)

/-- Python s.split(sep) for the one character separator used by the
script. -/
def pySplit (sep : Char) (s : String) : List String :=
  pySplitAux sep s.toList []

/-- Default of RELATIONSHIP_FIELDS when the environment variable is absent:
os.getenv("RELATIONSHIP_FIELDS", "").split(","). -/
def RELATIONSHIP_FIELDS_default : List String := pySplit ',' ""

/-- The single media test of handle_media_fields:
isinstance(value, dict) and value.get("url") (a truthy url). -/
def isMediaItem : Value → Bool
  | .obj kvs =>
      match lookupField kvs "url" with
      | some u => truthy u
      | none => false
  | _ => false

/-- The media URL used for one media mapping:
urljoin(STRAPI_3_BASE_URL, item["url"]). -/
def field_media_url (cfg : Config) (item : Value) : String :=
  cfg.urljoin cfg.STRAPI_3_BASE_URL ((getKey item "url").getD .null)

/-- Loop body of handle_media_fields for one field value.  Returns the new
value together with the trace of media URLs handed to the download/upload
pair (Media Transfer), in call order. -/
def media_rewrite_value (cfg : Config) (value : Value) : Value × List String :=
  if isMediaItem value then
    let media_url := field_media_url cfg value
    (.num (cfg.mediaTransfer media_url), [media_url])
  else
    match value with
    | .arr items =>
        if items.all isMediaItem then
          let urls := items.map (field_media_url cfg)
          (.arr (urls.map fun u => .num (cfg.mediaTransfer u)), urls)
        else (value, [])
    | _ => (value, [])

/-- handle_media_fields: rewrite every media valued field of an entry,
returning the new entry and the trace of Media Transfer calls in order. -/
def handle_media_fields (cfg : Config) : Entry → Entry × List String
  | [] => ([], [])
  | (f, v) :: rest =>
      let r := media_rewrite_value cfg v
      let rr := handle_media_fields cfg rest
      ((f, r.1) :: rr.1, r.2 ++ rr.2)

/-- fetch_related_id_in_strapi_4: query the destination for records whose
old_id equals the given one; return the id of the first match, or raise
ValueError (NotFoundError) when the data array is empty. -/
def fetch_related_id_in_strapi_4 (cfg : Config) (model_name : String)
    (old_id : Value) : Except PyError Value :=
  match cfg.relatedData model_name old_id with
  | [] => .error .valueError
  | d :: _ => getItem d "id"

/-- Python substring test s1 in s2 for the nonempty literal "id". -/
def strContainsId (s : String) : Bool := (s.splitOn "id").length > 1

/-- Python "id" in v for a JSON value: key membership on dicts, substring on
strings, element equality on lists, TypeError otherwise. -/
def containsId : Value → Except PyError Bool
  | .obj kvs => .ok (lookupField kvs "id").isSome
  | .str s => .ok (strContainsId s)
  | .arr items =>
      .ok (items.any fun v =>
        match v with
        | .str s => s == "id"
        | _ => false)
  | _ => .error .typeError

/-- The guard all("id" in v for v in value) of map_relationships, with the
short circuit evaluation of the Python all over a generator. -/
def allContainId : List Value → Except PyError Bool
  | [] => .ok true
  | v :: rest =>
      match containsId v with
      | .error e => .error e
      | .ok b => if b then allContainId rest else .ok false

/-- The list comprehension
[fetch_related_id_in_strapi_4(related_model, v["id"]) for v in value]
of map_relationships, in element order.  Each result is paired with the
old id it was resolved from, so the trace of resolver calls is visible. -/
def resolve_elems (cfg : Config) (model : String) :
    List Value → Except PyError (List (Value × Value))
  | [] => .ok []
  | v :: rest =>
      match getItem v "id" with
      | .error e => .error e
      | .ok old_id =>
          match fetch_related_id_in_strapi_4 cfg model old_id with
          | .error e => .error e
          | .ok rid =>
              match resolve_elems cfg model rest with
              | .error e => .error e
              | .ok rs => .ok ((rid, old_id) :: rs)

/-- Loop body of map_relationships for one field.  Fields outside
RELATIONSHIP_FIELDS are skipped; a dict holding an id becomes a single
connect directive; a list in which every element holds an id becomes one
connect directive over all resolved ids.  The second component traces the
resolver calls as pairs of model name (the field name) and old id. -/
def relationship_rewrite (cfg : Config) (field : String) (value : Value) :
    Except PyError (Value × List (String × Value)) :=
  if field ∈ cfg.RELATIONSHIP_FIELDS then
    match value with
    | .obj kvs =>
        match lookupField kvs "id" with
        | some old_id =>
            match fetch_related_id_in_strapi_4 cfg field old_id with
            | .error e => .error e
            | .ok rid =>
                .ok (.obj [("connect", .arr [.obj [("id", rid)]])],
                     [(field, old_id)])
        | none => .ok (value, [])
    | .arr vs =>
        match allContainId vs with
        | .error e => .error e
        | .ok b =>
            if b then
              match resolve_elems cfg field vs with
              | .error e => .error e
              | .ok rs =>
                  .ok (.obj [("connect", .arr (rs.map fun r => .obj [("id", r.1)]))],
                       rs.map fun r => (field, r.2))
            else .ok (value, [])
    | _ => .ok (value, [])
  else .ok (value, [])

/-- map_relationships: rewrite every configured relationship field of an
entry, propagating the first resolver exception.  The second component is
the concatenated trace of resolver calls. -/
def map_relationships (cfg : Config) :
    Entry → Except PyError (Entry × List (String × Value))
  | [] => .ok ([], [])
  | (f, v) :: rest =>
      match relationship_rewrite cfg f v with
      | .error e => .error e
      | .ok r =>
          match map_relationships cfg rest with
          | .error e => .error e
          | .ok rr => .ok ((f, r.1) :: rr.1, r.2 ++ rr.2)

/-- Inner loop of handle_components over a component array: each component
dict is mutated by handle_media_fields then map_relationships; the non dict
arm is unreachable under the all(isinstance(item, dict)) guard and keeps the
item. -/
def component_items (cfg : Config) : List Value → Except PyError (List Value)
  | [] => .ok []
  | it :: rest =>
      match it with
      | .obj kvs =>
          (match map_relationships cfg (handle_media_fields cfg kvs).1 with
           | .error e => .error e
           | .ok r =>
               match component_items cfg rest with
               | .error e => .error e
               | .ok rs => .ok (.obj r.1 :: rs))
      | _ =>
          match component_items cfg rest with
          | .error e => .error e
          | .ok rs => .ok (it :: rs)

/-- Loop body of handle_components for one field value: a list whose
elements are all dicts has each element transformed; a single dict is
transformed; everything else is untouched. -/
def component_rewrite (cfg : Config) (value : Value) : Except PyError Value :=
  match value with
  | .arr items =>
      if items.all isDict then
        match component_items cfg items with
        | .error e => .error e
        | .ok rs => .ok (.arr rs)
      else .ok value
  | .obj kvs =>
      match map_relationships cfg (handle_media_fields cfg kvs).1 with
      | .error e => .error e
      | .ok r => .ok (.obj r.1)
  | _ => .ok value

/-- handle_components: apply the media and relationship passes to every
component valued field of the entry. -/
def handle_components (cfg : Config) : Entry → Except PyError Entry
  | [] => .ok []
  | (f, v) :: rest =>
      match component_rewrite cfg v with
      | .error e => .error e
      | .ok v2 =>
          match handle_components cfg rest with
          | .error e => .error e
          | .ok rest2 => .ok ((f, v2) :: rest2)

/-- Per entry body of create_entries_in_strapi_4 up to the creation POST:
entry["old_id"] = entry["id"] (KeyError when the entry has no id), pop of
id, created_at and updated_at, then handle_media_fields, map_relationships
and handle_components.  Returns the payload submitted as the data member of
the POST body. -/
def prepare_entry (cfg : Config) (entry : Entry) : Except PyError Entry :=
  match lookupField entry "id" with
  | none => .error (.keyError "id")
  | some idv =>
      let e1 := setField entry "old_id" idv
      let e2 := popField (popField (popField e1 "id") "created_at") "updated_at"
      let e3 := (handle_media_fields cfg e2).1
      match map_relationships cfg e3 with
      | .error e => .error e
      | .ok r => handle_components cfg r.1

/-- create_entries_in_strapi_4: transform and submit every entry in order.
Each processed entry yields one creation request, recorded as the submitted
payload together with the success flag of the status check
(status_code == 200 or status_code == 201); a failing status is logged and
the loop continues, while a Python exception raised during transformation
propagates and aborts the remaining batch. -/
def create_entries_in_strapi_4 (cfg : Config) :
    List Entry → Except PyError (List (Entry × Bool))
  | [] => .ok []
  | entry :: rest =>
      match prepare_entry cfg entry with
      | .error e => .error e
      | .ok p =>
          match create_entries_in_strapi_4 cfg rest with
          | .error e => .error e
          | .ok log =>
              .ok ((p, cfg.createStatus p == 200 || cfg.createStatus p == 201) :: log)

/-- The while loop of fetch_entries_from_strapi_3 against a source holding
the entry list rem: each iteration issues one page request answering
rem.take P for page size P (the slice semantics of the _limit and _start
parameters), stops when a page comes back empty, otherwise accumulates the
page and moves the offset one page forward.  The fuel argument is an upper
bound on the number of iterations introduced by the embedding of the while
loop; fetch_pages_aux_spec shows it is never exhausted.  The result pairs
the accumulated entries with the number of page requests issued. -/
def fetch_pages_aux {α : Type} (P : Nat) : Nat → List α → List α × Nat
  | 0, _ => ([], 0)
  | fuel + 1, rem =>
      let data := rem.take P
      if data.isEmpty then ([], 1)
      else
        let r := fetch_pages_aux P fuel (rem.drop P)
        (data ++ r.1, r.2 + 1)

/-- fetch_entries_from_strapi_3: paginate through the whole source with page
size P, returning all entries and the number of page requests issued. -/
def fetch_entries_from_strapi_3 {α : Type} (P : Nat) (source : List α) :
    List α × Nat :=
  fetch_pages_aux P (source.length + 1) source

theorem lookupField_setField_self (l : Entry) (f : String) (x : Value) :
    lookupField (setField l f x) f = some x := by
  induction l with
  | nil => simp [setField, lookupField]
  | cons kv rest ih =>
      obtain ⟨k, v⟩ := kv
      by_cases hk : k = f
      · simp [setField, lookupField, hk]
      · simp [setField, lookupField, hk, ih]

theorem lookupField_setField_ne (l : Entry) (f g : String) (x : Value)
    (hg : g ≠ f) : lookupField (setField l f x) g = lookupField l g := by
  induction l with
  | nil => simp [setField, lookupField, Ne.symm hg]
  | cons kv rest ih =>
      obtain ⟨k, v⟩ := kv
      by_cases hk : k = f
      · subst hk
        simp [setField, lookupField, Ne.symm hg]
      · by_cases hkg : k = g
        · subst hkg
          simp [setField, lookupField, hk]
        · simp [setField, lookupField, hk, hkg, ih]

theorem lookupField_popField_self (l : Entry) (f : String) :
    lookupField (popField l f) f = none := by
  induction l with
  | nil => simp [popField, lookupField]
  | cons kv rest ih =>
      obtain ⟨k, v⟩ := kv
      by_cases hk : k = f
      · simp [popField, hk, ih]
      · simp [popField, lookupField, hk, ih]

theorem lookupField_popField_ne (l : Entry) (f g : String) (hg : g ≠ f) :
    lookupField (popField l f) g = lookupField l g := by
  induction l with
  | nil => simp [popField]
  | cons kv rest ih =>
      obtain ⟨k, v⟩ := kv
      by_cases hk : k = f
      · subst hk
        simp [popField, lookupField, Ne.symm hg, ih]
      · simp [popField, lookupField, hk, ih]

theorem handle_media_fields_lookup (cfg : Config) (l : Entry) (f : String) :
    lookupField (handle_media_fields cfg l).1 f =
      Option.map (fun v => (media_rewrite_value cfg v).1) (lookupField l f) := by
  induction l with
  | nil => simp [handle_media_fields, lookupField]
  | cons kv rest ih =>
      obtain ⟨k, v⟩ := kv
      by_cases hk : k = f
      · simp [handle_media_fields, lookupField, hk]
      · simp [handle_media_fields, lookupField, hk, ih]

theorem media_rewrite_value_num (cfg : Config) (n : Int) :
    media_rewrite_value cfg (.num n) = (.num n, []) := rfl

theorem relationship_rewrite_skip (cfg : Config) (f : String) (v : Value)
    (hf : f ∉ cfg.RELATIONSHIP_FIELDS) :
    relationship_rewrite cfg f v = .ok (v, []) := by
  unfold relationship_rewrite
  rw [if_neg hf]

theorem relationship_rewrite_num (cfg : Config) (f : String) (n : Int) :
    relationship_rewrite cfg f (.num n) = .ok (.num n, []) := by
  unfold relationship_rewrite
  split
  · rfl
  · rfl

theorem map_relationships_lookup_some (cfg : Config) :
    ∀ (l out : Entry) (tr : List (String × Value)) (f : String) (v : Value),
      map_relationships cfg l = .ok (out, tr) →
      lookupField l f = some v →
      ∃ w trw, relationship_rewrite cfg f v = .ok (w, trw) ∧
        lookupField out f = some w := by
  intro l
  induction l with
  | nil => intro out tr f v h hv; simp [lookupField] at hv
  | cons kv rest ih =>
      obtain ⟨k, u⟩ := kv
      intro out tr f v h hv
      simp only [map_relationships] at h
      cases hrw : relationship_rewrite cfg k u with
      | error e => rw [hrw] at h; cases h
      | ok r =>
          rw [hrw] at h
          cases hrr : map_relationships cfg rest with
          | error e => rw [hrr] at h; cases h
          | ok rr =>
              rw [hrr] at h
              cases h
              by_cases hk : k = f
              · subst hk
                simp only [lookupField, if_pos rfl] at hv ⊢
                cases hv
                exact ⟨r.1, r.2, by rw [hrw], rfl⟩
              · simp only [lookupField, if_neg hk] at hv ⊢
                exact ih rr.1 rr.2 f v (by rw [hrr]) hv

theorem map_relationships_lookup_none (cfg : Config) :
    ∀ (l out : Entry) (tr : List (String × Value)) (f : String),
      map_relationships cfg l = .ok (out, tr) →
      lookupField l f = none →
      lookupField out f = none := by
  intro l
  induction l with
  | nil => intro out tr f h hv; cases h; exact hv
  | cons kv rest ih =>
      obtain ⟨k, u⟩ := kv
      intro out tr f h hv
      simp only [map_relationships] at h
      cases hrw : relationship_rewrite cfg k u with
      | error e => rw [hrw] at h; cases h
      | ok r =>
          rw [hrw] at h
          cases hrr : map_relationships cfg rest with
          | error e => rw [hrr] at h; cases h
          | ok rr =>
              rw [hrr] at h
              cases h
              by_cases hk : k = f
              · simp [lookupField, hk] at hv
              · simp only [lookupField, if_neg hk] at hv ⊢
                exact ih rr.1 rr.2 f (by rw [hrr]) hv

theorem component_rewrite_num (cfg : Config) (n : Int) :
    component_rewrite cfg (.num n) = .ok (.num n) := rfl

theorem handle_components_lookup_some (cfg : Config) :
    ∀ (l out : Entry) (f : String) (v : Value),
      handle_components cfg l = .ok out →
      lookupField l f = some v →
      ∃ w, component_rewrite cfg v = .ok w ∧ lookupField out f = some w := by
  intro l
  induction l with
  | nil => intro out f v h hv; simp [lookupField] at hv
  | cons kv rest ih =>
      obtain ⟨k, u⟩ := kv
      intro out f v h hv
      simp only [handle_components] at h
      cases hrw : component_rewrite cfg u with
      | error e => rw [hrw] at h; cases h
      | ok v2 =>
          rw [hrw] at h
          cases hrr : handle_components cfg rest with
          | error e => rw [hrr] at h; cases h
          | ok rest2 =>
              rw [hrr] at h
              cases h
              by_cases hk : k = f
              · subst hk
                simp only [lookupField, if_pos rfl] at hv ⊢
                cases hv
                exact ⟨v2, hrw, rfl⟩
              · simp only [lookupField, if_neg hk] at hv ⊢
                exact ih rest2 f v hrr hv

theorem handle_components_lookup_none (cfg : Config) :
    ∀ (l out : Entry) (f : String),
      handle_components cfg l = .ok out →
      lookupField l f = none →
      lookupField out f = none := by
  intro l
  induction l with
  | nil => intro out f h hv; cases h; exact hv
  | cons kv rest ih =>
      obtain ⟨k, u⟩ := kv
      intro out f h hv
      simp only [handle_components] at h
      cases hrw : component_rewrite cfg u with
      | error e => rw [hrw] at h; cases h
      | ok v2 =>
          rw [hrw] at h
          cases hrr : handle_components cfg rest with
          | error e => rw [hrr] at h; cases h
          | ok rest2 =>
              rw [hrr] at h
              cases h
              by_cases hk : k = f
              · simp [lookupField, hk] at hv
              · simp only [lookupField, if_neg hk] at hv ⊢
                exact ih rest2 f hrr hv

theorem resolve_elems_length (cfg : Config) (model : String) :
    ∀ (vs : List Value) (rids : List (Value × Value)),
      resolve_elems cfg model vs = .ok rids → rids.length = vs.length := by
  intro vs
  induction vs with
  | nil => intro rids h; cases h; rfl
  | cons v rest ih =>
      intro rids h
      simp only [resolve_elems] at h
      cases h1 : getItem v "id" with
      | error e => simp only [h1] at h; cases h
      | ok old_id =>
          simp only [h1] at h
          cases h2 : fetch_related_id_in_strapi_4 cfg model old_id with
          | error e => simp only [h2] at h; cases h
          | ok rid =>
              simp only [h2] at h
              cases h3 : resolve_elems cfg model rest with
              | error e => simp only [h3] at h; cases h
              | ok rs =>
                  simp only [h3] at h
                  cases h
                  simp [ih rs h3]

theorem resolve_elems_get (cfg : Config) (model : String) :
    ∀ (vs : List Value) (rids : List (Value × Value)),
      resolve_elems cfg model vs = .ok rids →
      ∀ (i : Nat) (h1 : i < vs.length) (h2 : i < rids.length),
        getItem (vs.get ⟨i, h1⟩) "id" = .ok (rids.get ⟨i, h2⟩).2 ∧
        fetch_related_id_in_strapi_4 cfg model (rids.get ⟨i, h2⟩).2 =
          .ok (rids.get ⟨i, h2⟩).1 := by
  intro vs
  induction vs with
  | nil => intro rids h i h1 h2; exact absurd h1 (Nat.not_lt_zero i)
  | cons v rest ih =>
      intro rids h i h1 h2
      simp only [resolve_elems] at h
      cases hg : getItem v "id" with
      | error e => simp only [hg] at h; cases h
      | ok old_id =>
          simp only [hg] at h
          cases hf : fetch_related_id_in_strapi_4 cfg model old_id with
          | error e => simp only [hf] at h; cases h
          | ok rid =>
              simp only [hf] at h
              cases hr : resolve_elems cfg model rest with
              | error e => simp only [hr] at h; cases h
              | ok rs =>
                  simp only [hr] at h
                  cases h
                  cases i with
                  | zero => exact ⟨hg, hf⟩
                  | succ j =>
                      exact ih rs hr j (Nat.lt_of_succ_lt_succ h1)
                        (Nat.lt_of_succ_lt_succ h2)

theorem getItem_ok_obj (v : Value) (k : String) (w : Value)
    (h : getItem v k = .ok w) :
    ∃ kvs, v = .obj kvs ∧ lookupField kvs k = some w := by
  cases v with
  | obj kvs =>
      refine ⟨kvs, rfl, ?_⟩
      simp only [getItem] at h
      cases hl : lookupField kvs k with
      | none => rw [hl] at h; cases h
      | some u => rw [hl] at h; cases h; rfl
  | null => cases h
  | bool b => cases h
  | num n => cases h
  | str s => cases h
  | arr l => cases h

theorem resolve_elems_allContainId (cfg : Config) (model : String) :
    ∀ (vs : List Value) (rids : List (Value × Value)),
      resolve_elems cfg model vs = .ok rids → allContainId vs = .ok true := by
  intro vs
  induction vs with
  | nil => intro rids h; rfl
  | cons v rest ih =>
      intro rids h
      simp only [resolve_elems] at h
      cases hg : getItem v "id" with
      | error e => simp only [hg] at h; cases h
      | ok old_id =>
          simp only [hg] at h
          obtain ⟨kvs, rfl, hl⟩ := getItem_ok_obj v "id" old_id hg
          cases hf : fetch_related_id_in_strapi_4 cfg model old_id with
          | error e => simp only [hf] at h; cases h
          | ok rid =>
              simp only [hf] at h
              cases hr : resolve_elems cfg model rest with
              | error e => simp only [hr] at h; cases h
              | ok rs =>
                  simp only [allContainId, containsId, hl, Option.isSome_some,
                    if_pos]
                  exact ih rs hr

theorem create_ok_spec (cfg : Config) :
    ∀ (entries : List Entry) (log : List (Entry × Bool)),
      create_entries_in_strapi_4 cfg entries = .ok log →
      log.length = entries.length ∧
      (∀ r ∈ log,
        r.2 = (cfg.createStatus r.1 == 200 || cfg.createStatus r.1 == 201)) ∧
      (∀ (i : Nat) (h1 : i < entries.length) (h2 : i < log.length),
        prepare_entry cfg (entries.get ⟨i, h1⟩) = .ok (log.get ⟨i, h2⟩).1) := by
  intro entries
  induction entries with
  | nil =>
      intro log h
      cases h
      refine ⟨rfl, ?_, ?_⟩
      · intro r hr
        cases hr
      · intro i h1
        exact absurd h1 (Nat.not_lt_zero i)
  | cons entry rest ih =>
      intro log h
      simp only [create_entries_in_strapi_4] at h
      cases hp : prepare_entry cfg entry with
      | error e => rw [hp] at h; cases h
      | ok p =>
          rw [hp] at h
          cases hr : create_entries_in_strapi_4 cfg rest with
          | error e => rw [hr] at h; cases h
          | ok rlog =>
              rw [hr] at h
              cases h
              obtain ⟨hlen, hflag, hprep⟩ := ih rlog hr
              refine ⟨by simp [hlen], ?_, ?_⟩
              · intro r hr2
                cases hr2 with
                | head => rfl
                | tail _ hmem => exact hflag r hmem
              · intro i h1 h2
                cases i with
                | zero => exact hp
                | succ j =>
                    exact hprep j (Nat.lt_of_succ_lt_succ h1)
                      (Nat.lt_of_succ_lt_succ h2)

theorem fetch_pages_aux_spec {α : Type} (P : Nat) (hP : 0 < P) :
    ∀ (fuel : Nat) (rem : List α), rem.length < fuel →
      fetch_pages_aux P fuel rem = (rem, (rem.length + P - 1) / P + 1) := by
  intro fuel
  induction fuel with
  | zero => intro rem h; exact absurd h (Nat.not_lt_zero _)
  | succ n ih =>
      intro rem h
      cases rem with
      | nil =>
          have hz : (P - 1) / P = 0 := Nat.div_eq_of_lt (by omega)
          simp [fetch_pages_aux, hz]
      | cons a t =>
          obtain ⟨p, rfl⟩ : ∃ p, P = p + 1 := ⟨P - 1, by omega⟩
          have hlt : (List.drop (p + 1) (a :: t)).length < n := by
            simp only [List.length_drop, List.length_cons] at h ⊢
            omega
          simp only [fetch_pages_aux, List.take_succ_cons, List.isEmpty_cons,
            Bool.false_eq_true, if_false, ih (List.drop (p + 1) (a :: t)) hlt]
          refine Prod.ext ?_ ?_
          · simp [List.take_append_drop]
          · simp only [List.length_drop, List.length_cons]
            have hTp : (t.length + 1 - (p + 1) + (p + 1) - 1) / (p + 1) =
                t.length / (p + 1) := by
              rcases Nat.le_total p t.length with hle | hle
              · have : t.length + 1 - (p + 1) + (p + 1) - 1 = t.length := by
                  omega
                rw [this]
              · have h0 : t.length + 1 - (p + 1) = 0 := by omega
                rw [h0]
                have h1 : (0 + (p + 1) - 1) / (p + 1) = 0 :=
                  Nat.div_eq_of_lt (by omega)
                have h2 : t.length / (p + 1) = 0 :=
                  Nat.div_eq_of_lt (by omega)
                rw [h1, h2]
            have hR : t.length + 1 + (p + 1) - 1 = t.length + (p + 1) := by
              omega
            rw [hTp, hR, Nat.add_div_right _ (Nat.succ_pos p)]

/-- A concrete configuration used by the witnesses: one relationship field
named author, a media oracle assigning id 7 to every upload, and a
destination that answers every old_id query with one record of id 42. -/
def cfg0 : Config where
  STRAPI_3_BASE_URL := "http://src"
  RELATIONSHIP_FIELDS := ["author"]
  BATCH_SIZE := 10
  urljoin := fun base u =>
    match u with
    | .str s => base ++ s
    | _ => base
  mediaTransfer := fun _ => 7
  relatedData := fun _ _ => [.obj [("id", .num 42)]]
  createStatus := fun _ => 200

/-- A configuration whose destination returns no match for any old_id
query. -/
def cfgNoMatch : Config :=
  { cfg0 with relatedData := fun _ _ => [] }

/-- C1: a field holding a single mapping with a non empty url is replaced by
exactly the scalar media id returned by Media Transfer (one call, traced),
never the original mapping; a field holding a list in which every element is
a mapping with a non empty url is replaced by the equal length list of media
ids, one Media Transfer call per element in the original order. -/
theorem C1_media_pass (cfg : Config) :
    (∀ (entry : Entry) (f : String) (kvs : List (String × Value)) (s : String),
       lookupField entry f = some (.obj kvs) →
       lookupField kvs "url" = some (.str s) → s ≠ "" →
       lookupField (handle_media_fields cfg entry).1 f =
         some (.num (cfg.mediaTransfer
           (cfg.urljoin cfg.STRAPI_3_BASE_URL (.str s)))) ∧
       (media_rewrite_value cfg (.obj kvs)).2 =
         [cfg.urljoin cfg.STRAPI_3_BASE_URL (.str s)] ∧
       ∀ kvs2, Value.num (cfg.mediaTransfer
           (cfg.urljoin cfg.STRAPI_3_BASE_URL (.str s))) ≠ .obj kvs2) ∧
    (∀ (entry : Entry) (f : String) (items : List Value),
       lookupField entry f = some (.arr items) →
       (∀ it ∈ items, ∃ kvs s, it = .obj kvs ∧
           lookupField kvs "url" = some (.str s) ∧ s ≠ "") →
       lookupField (handle_media_fields cfg entry).1 f =
         some (.arr (items.map fun it =>
           .num (cfg.mediaTransfer (field_media_url cfg it)))) ∧
       (items.map fun it =>
           Value.num (cfg.mediaTransfer (field_media_url cfg it))).length =
         items.length ∧
       (media_rewrite_value cfg (.arr items)).2 =
         items.map (field_media_url cfg)) := by
  constructor
  · intro entry f kvs s hf hu hs
    have hm : isMediaItem (.obj kvs) = true := by
      simp [isMediaItem, hu, truthy, bne_iff_ne, hs]
    have hurl : field_media_url cfg (.obj kvs) =
        cfg.urljoin cfg.STRAPI_3_BASE_URL (.str s) := by
      simp [field_media_url, getKey, hu]
    have hrw : media_rewrite_value cfg (.obj kvs) =
        (.num (cfg.mediaTransfer (cfg.urljoin cfg.STRAPI_3_BASE_URL (.str s))),
         [cfg.urljoin cfg.STRAPI_3_BASE_URL (.str s)]) := by
      simp [media_rewrite_value, hm, hurl]
    refine ⟨?_, by rw [hrw], fun kvs2 h => Value.noConfusion h⟩
    rw [handle_media_fields_lookup, hf]
    show some ((media_rewrite_value cfg (Value.obj kvs)).1) = _
    rw [hrw]
  · intro entry f items hf hall
    have hitems : ∀ it ∈ items, isMediaItem it = true := by
      intro it hit
      obtain ⟨kvs, s, rfl, hu, hs⟩ := hall it hit
      simp [isMediaItem, hu, truthy, bne_iff_ne, hs]
    have hb : items.all isMediaItem = true := List.all_eq_true.mpr hitems
    have hrw : media_rewrite_value cfg (.arr items) =
        (.arr (items.map fun it =>
           .num (cfg.mediaTransfer (field_media_url cfg it))),
         items.map (field_media_url cfg)) := by
      simp [media_rewrite_value, isMediaItem, hb, List.map_map]
    refine ⟨?_, by simp, by rw [hrw]⟩
    rw [handle_media_fields_lookup, hf]
    show some ((media_rewrite_value cfg (Value.arr items)).1) = _
    rw [hrw]

/-- C1 witness: a cover field with one media mapping becomes scalar id 7
with one traced transfer, and a one element media list becomes the one
element id list with its traced transfer. -/
theorem C1_media_pass_witness :
    lookupField (handle_media_fields cfg0
        [("cover", .obj [("url", .str "/img.png")])]).1 "cover" =
      some (.num 7) ∧
    (media_rewrite_value cfg0 (.obj [("url", .str "/img.png")])).2 =
      ["http://src/img.png"] ∧
    Value.num 7 ≠ Value.obj [] ∧
    lookupField (handle_media_fields cfg0
        [("photos", .arr [.obj [("url", .str "/a.png")]])]).1 "photos" =
      some (.arr [.num 7]) ∧
    (media_rewrite_value cfg0 (.arr [.obj [("url", .str "/a.png")]])).2 =
      ["http://src/a.png"] := by
  have h1 := (C1_media_pass cfg0).1 [("cover", .obj [("url", .str "/img.png")])]
      "cover" [("url", .str "/img.png")] "/img.png" rfl rfl (by decide)
  have hmem : ∀ it ∈ [Value.obj [("url", .str "/a.png")]],
      ∃ kvs s, it = Value.obj kvs ∧
        lookupField kvs "url" = some (.str s) ∧ s ≠ "" := by
    intro it hit
    cases hit with
    | head => exact ⟨[("url", .str "/a.png")], "/a.png", rfl, rfl, by decide⟩
    | tail _ hx => cases hx
  have h2 := (C1_media_pass cfg0).2
      [("photos", .arr [.obj [("url", .str "/a.png")]])] "photos"
      [.obj [("url", .str "/a.png")]] rfl hmem
  exact ⟨h1.1, h1.2.1, h1.2.2 [], h2.1, h2.2.2⟩

/-- C5: the relationship resolver returns the id of the first match when the
destination query answers one or more matches, and fails with the
NotFoundError (the ValueError of the script) exactly when the data array is
empty. -/
theorem C5_resolver (cfg : Config) (model : String) (old_id : Value) :
    (fetch_related_id_in_strapi_4 cfg model old_id = .error .valueError ↔
       cfg.relatedData model old_id = []) ∧
    (∀ (d : Value) (rest : List Value) (kvs : List (String × Value)) (i : Value),
       cfg.relatedData model old_id = d :: rest → d = .obj kvs →
       lookupField kvs "id" = some i →
       fetch_related_id_in_strapi_4 cfg model old_id = .ok i) := by
  constructor
  · constructor
    · intro h
      cases hdata : cfg.relatedData model old_id with
      | nil => rfl
      | cons d rest =>
          exfalso
          unfold fetch_related_id_in_strapi_4 at h
          rw [hdata] at h
          cases d with
          | obj kvs =>
              simp only [getItem] at h
              cases hl : lookupField kvs "id" with
              | some v => rw [hl] at h; cases h
              | none => rw [hl] at h; cases h
          | null => cases h
          | bool b => cases h
          | num n => cases h
          | str s => cases h
          | arr l => cases h
    · intro h
      unfold fetch_related_id_in_strapi_4
      rw [h]
  · intro d rest kvs i hdata hd hl
    subst hd
    unfold fetch_related_id_in_strapi_4
    rw [hdata]
    simp [getItem, hl]

/-- C5 witness: with one matching record of id 42 the resolver returns 42;
with an empty data array it raises the not found error. -/
theorem C5_resolver_witness :
    cfg0.relatedData "author" (.num 9) = [.obj [("id", .num 42)]] ∧
    fetch_related_id_in_strapi_4 cfg0 "author" (.num 9) = .ok (.num 42) ∧
    cfgNoMatch.relatedData "author" (.num 9) = [] ∧
    fetch_related_id_in_strapi_4 cfgNoMatch "author" (.num 9) =
      .error .valueError := by
  refine ⟨rfl, ?_, rfl, ?_⟩
  · exact (C5_resolver cfg0 "author" (.num 9)).2 (.obj [("id", .num 42)]) []
      [("id", .num 42)] (.num 42) rfl rfl rfl
  · exact (C5_resolver cfgNoMatch "author" (.num 9)).1.mpr rfl

/-- C7: a field whose name is not in RELATIONSHIP_FIELDS is never rewritten
by the relationship pass, even when shaped like an id mapping. -/
theorem C7_frame (cfg : Config) (f : String)
    (hf : f ∉ cfg.RELATIONSHIP_FIELDS) (v : Value) :
    relationship_rewrite cfg f v = .ok (v, []) ∧
    ∀ (entry out : Entry) (tr : List (String × Value)),
      map_relationships cfg entry = .ok (out, tr) →
      lookupField entry f = some v →
      lookupField out f = some v := by
  refine ⟨relationship_rewrite_skip cfg f v hf, ?_⟩
  intro entry out tr h hv
  obtain ⟨w, trw, hw, hl⟩ :=
    map_relationships_lookup_some cfg entry out tr f v h hv
  rw [relationship_rewrite_skip cfg f v hf] at hw
  cases hw
  exact hl

/-- C7 witness: the field title, absent from the configured set, keeps its
id shaped mapping through the relationship pass. -/
theorem C7_frame_witness :
    "title" ∉ cfg0.RELATIONSHIP_FIELDS ∧
    relationship_rewrite cfg0 "title" (.obj [("id", .num 1)]) =
      .ok (.obj [("id", .num 1)], []) ∧
    lookupField [("title", Value.obj [("id", .num 1)])] "title" =
      some (.obj [("id", .num 1)]) := by
  have hf : "title" ∉ cfg0.RELATIONSHIP_FIELDS := by decide
  have h := C7_frame cfg0 "title" hf (.obj [("id", .num 1)])
  exact ⟨hf, h.1,
    h.2 [("title", .obj [("id", .num 1)])] [("title", .obj [("id", .num 1)])]
      [] rfl rfl⟩

/-- C10: a configured relationship field holding the empty list becomes the
empty connect directive with no resolver call (empty trace). -/
theorem C10_empty_list (cfg : Config) (f : String)
    (hf : f ∈ cfg.RELATIONSHIP_FIELDS) :
    relationship_rewrite cfg f (.arr []) =
      .ok (.obj [("connect", .arr [])], []) ∧
    ∀ (entry out : Entry) (tr : List (String × Value)),
      map_relationships cfg entry = .ok (out, tr) →
      lookupField entry f = some (.arr []) →
      lookupField out f = some (.obj [("connect", .arr [])]) := by
  have hr : relationship_rewrite cfg f (.arr []) =
      .ok (.obj [("connect", .arr [])], []) := by
    unfold relationship_rewrite
    rw [if_pos hf]
    rfl
  refine ⟨hr, ?_⟩
  intro entry out tr h hv
  obtain ⟨w, trw, hw, hl⟩ :=
    map_relationships_lookup_some cfg entry out tr f (.arr []) h hv
  rw [hr] at hw
  cases hw
  exact hl

/-- C10 witness: an empty author list becomes the empty connect directive,
through the full pass, with the empty resolver trace. -/
theorem C10_empty_list_witness :
    "author" ∈ cfg0.RELATIONSHIP_FIELDS ∧
    relationship_rewrite cfg0 "author" (.arr []) =
      .ok (.obj [("connect", .arr [])], []) ∧
    lookupField [("author", Value.arr [])] "author" = some (.arr []) := by
  have hf : "author" ∈ cfg0.RELATIONSHIP_FIELDS := by decide
  have h := C10_empty_list cfg0 "author" hf
  exact ⟨hf, h.1, rfl⟩

/-- C2: a configured relationship field holding a dict with an id becomes
one connect directive over the id resolved with the field name as model
name; a list in which every element holds an id becomes one connect
directive listing the resolved ids of all elements, resolved one per element
in the original order. -/
theorem C2_relationship_pass (cfg : Config) (f : String)
    (hf : f ∈ cfg.RELATIONSHIP_FIELDS) :
    (∀ (kvs : List (String × Value)) (old_id rid : Value),
       lookupField kvs "id" = some old_id →
       fetch_related_id_in_strapi_4 cfg f old_id = .ok rid →
       relationship_rewrite cfg f (.obj kvs) =
         .ok (.obj [("connect", .arr [.obj [("id", rid)]])], [(f, old_id)])) ∧
    (∀ (vs : List Value) (rs : List (Value × Value)),
       resolve_elems cfg f vs = .ok rs →
       relationship_rewrite cfg f (.arr vs) =
         .ok (.obj [("connect", .arr (rs.map fun r => .obj [("id", r.1)]))],
              rs.map fun r => (f, r.2)) ∧
       rs.length = vs.length ∧
       ∀ (i : Nat) (h1 : i < vs.length) (h2 : i < rs.length),
         getItem (vs.get ⟨i, h1⟩) "id" = .ok (rs.get ⟨i, h2⟩).2 ∧
         fetch_related_id_in_strapi_4 cfg f (rs.get ⟨i, h2⟩).2 =
           .ok (rs.get ⟨i, h2⟩).1) := by
  constructor
  · intro kvs old_id rid hid hfetch
    unfold relationship_rewrite
    rw [if_pos hf]
    simp only [hid, hfetch]
  · intro vs rs hres
    have hall : allContainId vs = .ok true :=
      resolve_elems_allContainId cfg f vs rs hres
    refine ⟨?_, resolve_elems_length cfg f vs rs hres,
      resolve_elems_get cfg f vs rs hres⟩
    unfold relationship_rewrite
    rw [if_pos hf]
    simp only [hall, hres, if_true]

/-- C2 witness: the author field with id 9 resolves to 42 and becomes one
connect directive; a two element author list becomes one connect directive
over both resolved ids in order. -/
theorem C2_relationship_pass_witness :
    "author" ∈ cfg0.RELATIONSHIP_FIELDS ∧
    relationship_rewrite cfg0 "author" (.obj [("id", .num 9)]) =
      .ok (.obj [("connect", .arr [.obj [("id", .num 42)]])],
        [("author", .num 9)]) ∧
    relationship_rewrite cfg0 "author"
        (.arr [.obj [("id", .num 9)], .obj [("id", .num 11)]]) =
      .ok (.obj [("connect",
          .arr [.obj [("id", .num 42)], .obj [("id", .num 42)]])],
        [("author", .num 9), ("author", .num 11)]) ∧
    getItem (Value.obj [("id", .num 9)]) "id" = .ok (.num 9) ∧
    fetch_related_id_in_strapi_4 cfg0 "author" (.num 9) = .ok (.num 42) := by
  have hf : "author" ∈ cfg0.RELATIONSHIP_FIELDS := by decide
  have h1 := (C2_relationship_pass cfg0 "author" hf).1 [("id", .num 9)]
      (.num 9) (.num 42) rfl rfl
  have h2 := (C2_relationship_pass cfg0 "author" hf).2
      [.obj [("id", .num 9)], .obj [("id", .num 11)]]
      [(.num 42, .num 9), (.num 42, .num 11)] rfl
  have h3 := h2.2.2 0 (by decide) (by decide)
  exact ⟨hf, h1, h2.1, h3.1, h3.2⟩

/-- C4: for every entry carrying a numeric source id, the payload submitted
by the create stage holds old_id equal to that source id, and the original
id, created_at and updated_at fields are absent from the payload. -/
theorem C4_old_id (cfg : Config) (entry p : Entry) (n : Int)
    (hid : lookupField entry "id" = some (.num n))
    (hp : prepare_entry cfg entry = .ok p) :
    lookupField p "old_id" = some (.num n) ∧
    lookupField p "id" = none ∧
    lookupField p "created_at" = none ∧
    lookupField p "updated_at" = none := by
  unfold prepare_entry at hp
  simp only [hid] at hp
  have h2old : lookupField (popField (popField (popField
      (setField entry "old_id" (Value.num n)) "id") "created_at")
      "updated_at") "old_id" = some (.num n) := by
    rw [lookupField_popField_ne _ _ _ (by decide),
      lookupField_popField_ne _ _ _ (by decide),
      lookupField_popField_ne _ _ _ (by decide),
      lookupField_setField_self]
  have h2id : lookupField (popField (popField (popField
      (setField entry "old_id" (Value.num n)) "id") "created_at")
      "updated_at") "id" = none := by
    rw [lookupField_popField_ne _ _ _ (by decide),
      lookupField_popField_ne _ _ _ (by decide),
      lookupField_popField_self]
  have h2ca : lookupField (popField (popField (popField
      (setField entry "old_id" (Value.num n)) "id") "created_at")
      "updated_at") "created_at" = none := by
    rw [lookupField_popField_ne _ _ _ (by decide),
      lookupField_popField_self]
  have h2ua : lookupField (popField (popField (popField
      (setField entry "old_id" (Value.num n)) "id") "created_at")
      "updated_at") "updated_at" = none := lookupField_popField_self _ _
  have h3old : lookupField ((handle_media_fields cfg (popField (popField
      (popField (setField entry "old_id" (Value.num n)) "id") "created_at")
      "updated_at")).1) "old_id" = some (.num n) := by
    rw [handle_media_fields_lookup, h2old]
    rfl
  have h3id : lookupField ((handle_media_fields cfg (popField (popField
      (popField (setField entry "old_id" (Value.num n)) "id") "created_at")
      "updated_at")).1) "id" = none := by
    rw [handle_media_fields_lookup, h2id]
    rfl
  have h3ca : lookupField ((handle_media_fields cfg (popField (popField
      (popField (setField entry "old_id" (Value.num n)) "id") "created_at")
      "updated_at")).1) "created_at" = none := by
    rw [handle_media_fields_lookup, h2ca]
    rfl
  have h3ua : lookupField ((handle_media_fields cfg (popField (popField
      (popField (setField entry "old_id" (Value.num n)) "id") "created_at")
      "updated_at")).1) "updated_at" = none := by
    rw [handle_media_fields_lookup, h2ua]
    rfl
  cases hmr : map_relationships cfg ((handle_media_fields cfg (popField
      (popField (popField (setField entry "old_id" (Value.num n)) "id")
      "created_at") "updated_at")).1) with
  | error e => rw [hmr] at hp; cases hp
  | ok r =>
      rw [hmr] at hp
      obtain ⟨w, trw, hw, hrold⟩ :=
        map_relationships_lookup_some cfg _ r.1 r.2 "old_id" (.num n)
          (by rw [hmr]) h3old
      rw [relationship_rewrite_num] at hw
      cases hw
      have hrid := map_relationships_lookup_none cfg _ r.1 r.2 "id"
        (by rw [hmr]) h3id
      have hrca := map_relationships_lookup_none cfg _ r.1 r.2 "created_at"
        (by rw [hmr]) h3ca
      have hrua := map_relationships_lookup_none cfg _ r.1 r.2 "updated_at"
        (by rw [hmr]) h3ua
      obtain ⟨w2, hw2, hpold⟩ :=
        handle_components_lookup_some cfg r.1 p "old_id" (.num n) hp hrold
      rw [component_rewrite_num] at hw2
      cases hw2
      exact ⟨hpold,
        handle_components_lookup_none cfg r.1 p "id" hp hrid,
        handle_components_lookup_none cfg r.1 p "created_at" hp hrca,
        handle_components_lookup_none cfg r.1 p "updated_at" hp hrua⟩

/-- C4 witness: the entry of id 5 with a title and both timestamps yields
the payload holding exactly the title and old_id 5. -/
theorem C4_old_id_witness :
    lookupField [("id", Value.num 5), ("title", Value.str "A"),
      ("created_at", Value.str "t"), ("updated_at", Value.str "u")] "id" =
      some (.num 5) ∧
    prepare_entry cfg0 [("id", Value.num 5), ("title", Value.str "A"),
      ("created_at", Value.str "t"), ("updated_at", Value.str "u")] =
      .ok [("title", Value.str "A"), ("old_id", Value.num 5)] ∧
    lookupField [("title", Value.str "A"), ("old_id", Value.num 5)]
      "old_id" = some (.num 5) ∧
    lookupField [("title", Value.str "A"), ("old_id", Value.num 5)] "id" =
      none ∧
    lookupField [("title", Value.str "A"), ("old_id", Value.num 5)]
      "created_at" = none ∧
    lookupField [("title", Value.str "A"), ("old_id", Value.num 5)]
      "updated_at" = none := by
  have h := C4_old_id cfg0
    [("id", Value.num 5), ("title", Value.str "A"),
      ("created_at", Value.str "t"), ("updated_at", Value.str "u")]
    [("title", Value.str "A"), ("old_id", Value.num 5)] 5 rfl rfl
  exact ⟨rfl, rfl, h.1, h.2.1, h.2.2.1, h.2.2.2⟩

/-- Configuration whose creation endpoint answers status 204 for every
payload. -/
def cfg204 : Config := { cfg0 with createStatus := fun _ => 204 }

/-- C6 counterexample: status 204 is a 2xx status, yet the create stage
records the entry as a failure, because the script accepts only 200 and
201. -/
theorem C6_status_counterexample :
    (200 ≤ 204 ∧ 204 < 300) ∧
    cfg204.createStatus [("old_id", Value.num 1)] = 204 ∧
    create_entries_in_strapi_4 cfg204 [[("id", Value.num 1)]] =
      .ok [([("old_id", Value.num 1)], false)] ∧
    create_entries_in_strapi_4 cfg204 [[("id", Value.num 1)]] ≠
      .ok [([("old_id", Value.num 1)], true)] :=
  ⟨⟨by decide, by decide⟩, rfl, rfl, by rw [show
    create_entries_in_strapi_4 cfg204 [[("id", Value.num 1)]] =
      .ok [([("old_id", Value.num 1)], false)] from rfl]; simp⟩

/-- C6 (amended): a creation response with status 200 or 201 is recorded as
success and any other status as a per entry failure; every entry in the
batch yields exactly one recorded creation attempt carrying its prepared
payload, so no creation failure aborts the processing of subsequent
entries. -/
theorem C6_create_stage_amended (cfg : Config) (entries : List Entry)
    (log : List (Entry × Bool))
    (h : create_entries_in_strapi_4 cfg entries = .ok log) :
    log.length = entries.length ∧
    (∀ r ∈ log,
      r.2 = (cfg.createStatus r.1 == 200 || cfg.createStatus r.1 == 201)) ∧
    (∀ (i : Nat) (h1 : i < entries.length) (h2 : i < log.length),
      prepare_entry cfg (entries.get ⟨i, h1⟩) = .ok (log.get ⟨i, h2⟩).1) :=
  create_ok_spec cfg entries log h

/-- C6 amended witness: a two entry batch against the 204 endpoint is fully
processed, both entries recorded as failures. -/
theorem C6_create_stage_amended_witness :
    create_entries_in_strapi_4 cfg204
        [[("id", Value.num 1)], [("id", Value.num 2)]] =
      .ok [([("old_id", Value.num 1)], false),
           ([("old_id", Value.num 2)], false)] ∧
    ([([("old_id", Value.num 1)], false),
      ([("old_id", Value.num 2)], false)] :
        List (Entry × Bool)).length = 2 ∧
    prepare_entry cfg204 [("id", Value.num 2)] =
      .ok [("old_id", Value.num 2)] := by
  have h := C6_create_stage_amended cfg204
    [[("id", Value.num 1)], [("id", Value.num 2)]]
    [([("old_id", Value.num 1)], false), ([("old_id", Value.num 2)], false)]
    rfl
  exact ⟨rfl, h.1, h.2.2 1 (by decide) (by decide)⟩

/-- Configuration carrying the default (absent) RELATIONSHIP_FIELDS. -/
def cfgDefaultRF : Config :=
  { cfg0 with RELATIONSHIP_FIELDS := RELATIONSHIP_FIELDS_default }

/-- C8 counterexample: with the environment variable absent the set is not
empty but the singleton list of the empty string, so a field named the
empty string IS rewritten into a connect directive by the relationship
pass, contradicting the claim that no field of any entry is rewritten. -/
theorem C8_default_counterexample :
    RELATIONSHIP_FIELDS_default = [""] ∧
    map_relationships cfgDefaultRF [("", .obj [("id", .num 5)])] =
      .ok ([("", .obj [("connect", .arr [.obj [("id", .num 42)]])])],
           [("", .num 5)]) ∧
    lookupField [("", Value.obj [("connect",
        Value.arr [Value.obj [("id", Value.num 42)]])])] "" =
      some (.obj [("connect", .arr [.obj [("id", .num 42)]])]) ∧
    Value.obj [("connect", Value.arr [Value.obj [("id", Value.num 42)]])] ≠
      Value.obj [("id", Value.num 5)] :=
  ⟨by decide, rfl, rfl, by simp⟩

/-- C8 (amended): the default relationship field set is the singleton list
of the empty string, so under the default configuration every field with a
non empty name is left unchanged by the relationship pass; only a field
named the empty string is treated as a relationship field. -/
theorem C8_default_amended (cfg : Config)
    (hdef : cfg.RELATIONSHIP_FIELDS = RELATIONSHIP_FIELDS_default)
    (f : String) (hf : f ≠ "") (v : Value) :
    relationship_rewrite cfg f v = .ok (v, []) ∧
    ∀ (entry out : Entry) (tr : List (String × Value)),
      map_relationships cfg entry = .ok (out, tr) →
      lookupField entry f = some v →
      lookupField out f = some v := by
  have hnot : f ∉ cfg.RELATIONSHIP_FIELDS := by
    rw [hdef, show RELATIONSHIP_FIELDS_default = [""] from by decide]
    simp [hf]
  refine ⟨relationship_rewrite_skip cfg f v hnot, ?_⟩
  intro entry out tr h hv
  obtain ⟨w, trw, hw, hl⟩ :=
    map_relationships_lookup_some cfg entry out tr f v h hv
  rw [relationship_rewrite_skip cfg f v hnot] at hw
  cases hw
  exact hl

/-- C8 amended witness: under the default configuration the non empty field
name author keeps its id shaped value. -/
theorem C8_default_amended_witness :
    cfgDefaultRF.RELATIONSHIP_FIELDS = RELATIONSHIP_FIELDS_default ∧
    relationship_rewrite cfgDefaultRF "author" (.obj [("id", .num 9)]) =
      .ok (.obj [("id", .num 9)], []) := by
  have h := C8_default_amended cfgDefaultRF rfl "author" (by decide)
    (.obj [("id", .num 9)])
  exact ⟨rfl, h.1⟩

/-- C3 counterexample: a source of 3 entries with page size 10 takes 2 page
requests, not ceil((3+1)/10) = 1 as the claim states. -/
theorem C3_request_count_counterexample :
    (fetch_entries_from_strapi_3 10
      [[("id", Value.num 1)], [("id", Value.num 2)],
       [("id", Value.num 3)]]).2 = 2 ∧
    (3 + 1 + 10 - 1) / 10 = 1 ∧
    (fetch_entries_from_strapi_3 10
      [[("id", Value.num 1)], [("id", Value.num 2)],
       [("id", Value.num 3)]]).2 ≠ (3 + 1 + 10 - 1) / 10 := by
  exact ⟨rfl, rfl, by decide⟩

/-- C3 (amended): fetching terminates exactly when a page comes back empty;
for N entries and page size P greater than zero, all N entries are returned
in order and exactly ceil(N divided by P) + 1 page requests are issued, the
last request being the one that detects the empty final page. -/
theorem C3_request_count_amended {α : Type} (P : Nat) (hP : 0 < P)
    (source : List α) :
    fetch_entries_from_strapi_3 P source =
      (source, (source.length + P - 1) / P + 1) :=
  fetch_pages_aux_spec P hP (source.length + 1) source
    (Nat.lt_succ_self source.length)

/-- C3 amended witness: 3 entries at page size 10 give 2 requests. -/
theorem C3_request_count_amended_witness :
    (0 < 10) ∧
    fetch_entries_from_strapi_3 10
      [[("id", Value.num 1)], [("id", Value.num 2)],
       [("id", Value.num 3)]] =
      ([[("id", Value.num 1)], [("id", Value.num 2)],
        [("id", Value.num 3)]], 2) :=
  ⟨by decide, C3_request_count_amended 10 (by decide)
    [[("id", Value.num 1)], [("id", Value.num 2)], [("id", Value.num 3)]]⟩

/-- C9: for any source holding exactly 3 entries at page size 10, the run
issues exactly 2 fetch page requests returning all 3 entries, and one
creation request per entry, hence 3 creation requests whenever the batch is
fully processed. -/
theorem C9_scenario (source : List Entry) (h3 : source.length = 3)
    (cfg : Config) :
    fetch_entries_from_strapi_3 10 source = (source, 2) ∧
    ∀ (log : List (Entry × Bool)),
      create_entries_in_strapi_4 cfg source = .ok log → log.length = 3 := by
  constructor
  · have h := fetch_pages_aux_spec 10 (by decide) (source.length + 1) source
      (Nat.lt_succ_self source.length)
    rw [fetch_entries_from_strapi_3, h, h3]
  · intro log hlog
    rw [(create_ok_spec cfg source log hlog).1, h3]

/-- C9 witness: a concrete 3 entry source takes 2 page requests and its
batch yields exactly 3 creation requests. -/
theorem C9_scenario_witness :
    ([[("id", Value.num 1)], [("id", Value.num 2)],
      [("id", Value.num 3)]] : List Entry).length = 3 ∧
    fetch_entries_from_strapi_3 10
      ([[("id", Value.num 1)], [("id", Value.num 2)],
        [("id", Value.num 3)]] : List Entry) =
      ([[("id", Value.num 1)], [("id", Value.num 2)],
        [("id", Value.num 3)]], 2) ∧
    create_entries_in_strapi_4 cfg0
      [[("id", Value.num 1)], [("id", Value.num 2)], [("id", Value.num 3)]] =
      .ok [([("old_id", Value.num 1)], true), ([("old_id", Value.num 2)], true),
           ([("old_id", Value.num 3)], true)] ∧
    ([([("old_id", Value.num 1)], true), ([("old_id", Value.num 2)], true),
      ([("old_id", Value.num 3)], true)] :
        List (Entry × Bool)).length = 3 := by
  have h := C9_scenario
    [[("id", Value.num 1)], [("id", Value.num 2)], [("id", Value.num 3)]]
    rfl cfg0
  exact ⟨rfl, h.1, rfl,
    h.2 [([("old_id", Value.num 1)], true), ([("old_id", Value.num 2)], true),
         ([("old_id", Value.num 3)], true)] rfl⟩

end Migrate
